import Mathlib

/-!
# Verification of the Checkpoint Validation Engine

A shallow embedding of `backend/utils/checkpoint_validator.py`
(class `CheckpointValidator`) together with theorems settling the
specification claims about it.

Modelling conventions:

* Python dict-shaped inputs (`checkpoint_config`, check rules, test cases)
  become structures whose fields are `Option`-valued; `d.get(k, default)`
  becomes `field.getD default`.
* The Python runtime primitives the validator calls (`ast.parse`,
  `re.search`, `exec`, calling a student function, `signal.alarm`) are not
  part of the repository, so they are modelled: a submitted source text is
  carried together with the outcomes CPython assigns to it (its parse
  result and the behaviour of executing its module body), and `re.search`
  is modelled for the pattern subset exercised here (literal patterns and
  the malformed pattern with an unmatched opening parenthesis).
* Machine behaviour that can raise is returned explicitly: `Outcome`
  distinguishes a returned `ValidationResult`, an exception that
  propagates to the caller, and a call that never returns.
* Wall-clock time is modelled by giving each primitive step a duration and
  threading the pending `signal.alarm` state through the run; when the
  alarm fires it raises `TimeoutError` at the current execution point and
  is consumed (it is not rescheduled), exactly as a one-shot SIGALRM.
-/

set_option autoImplicit false

/-- Model of the Python values that flow through test cases (inputs,
`expected`, actual results): ints, strings, booleans and `None`.
Equality on this subset coincides with Python `==`. -/
inductive PyVal where
  | pyint (n : Int)
  | pystr (s : String)
  | pybool (b : Bool)
  | pynone
  deriving DecidableEq, Repr

/-- Python `str(v)` on the modelled value subset (used by f-strings). -/
def PyVal.str : PyVal → String
  | .pyint n => toString n
  | .pystr s => s
  | .pybool b => if b then "True" else "False"
  | .pynone => "None"

/-- Python `type(v).__name__` on the modelled value subset. -/
def PyVal.typeName : PyVal → String
  | .pyint _ => "int"
  | .pystr _ => "str"
  | .pybool _ => "bool"
  | .pynone => "NoneType"

/-- Model of the Python exceptions that arise in the validator: the
constructor records the exception class, the field records `str(e)`. -/
inductive PyExc where
  | timeoutError (msg : String)
  | typeError (msg : String)
  | nameError (msg : String)
  | reError (msg : String)
  | valueError (msg : String)
  | otherExc (msg : String)
  deriving DecidableEq, Repr

/-- Python `str(e)` for a modelled exception. -/
def PyExc.str : PyExc → String
  | .timeoutError m => m
  | .typeError m => m
  | .nameError m => m
  | .reError m => m
  | .valueError m => m
  | .otherExc m => m

/-- A `SyntaxError` raised by `ast.parse`: line number and parser reason
(`e.lineno` and `e.msg`). -/
structure SynError where
  lineno : Nat
  msg : String
  deriving DecidableEq, Repr

/-- Model of a parsed module (`ast.parse` result): the list of
`type(node).__name__` strings produced by `ast.walk(tree)`, which is the
only view of the tree the validator uses (`_ast_contains_node`). -/
structure PyAst where
  nodeTypes : List String
  deriving DecidableEq, Repr

/-- The behaviour of one Python computation step (executing the module
body, or one call of the student function): it completes after `t`
seconds with a value, raises an exception after `t` seconds, or runs
forever. -/
inductive StepBeh (α : Type) where
  | ret (t : Nat) (a : α)
  | raiseExc (t : Nat) (e : PyExc)
  | diverge

/-- An object bound in the execution namespace: a callable (its behaviour
as a function of the keyword arguments it is called with), a plain
non-callable value, or the `__builtins__` dict the validator seeds. -/
inductive PyObj where
  | callable (f : List (String × PyVal) → StepBeh PyVal)
  | plain (v : PyVal)
  | builtinsDict

/-- Model of a submitted source text: the raw string together with the
outcomes the CPython runtime assigns to it — the `ast.parse` result, and
(for the execution path) the behaviour of `exec`-ing its module body,
returning the global bindings the module body creates.  These runtime
outcomes are not computable from the string inside the embedding, so a
submission carries them; every concrete `Code` below records the real
behaviour of the quoted Python text. -/
structure Code where
  text : String
  parse : Except SynError PyAst
  execBeh : StepBeh (List (String × PyObj))

/-- The result dict returned across the engine boundary.  `errors` /
`hints` are `Option`-valued: `none` models both an absent key and an
explicit `None` value (the spec's wire contract treats these as
equivalent). -/
structure ValidationResult where
  passed : Bool
  message : String
  errors : Option (List String) := none
  hints : Option (List String) := none
  deriving DecidableEq, Repr

/-- A static check rule dict (`checks` entry in `validate_static`). -/
structure CheckRule where
  type_ : Option String := none
  pattern : Option String := none
  node_type : Option String := none
  message : Option String := none
  required : Option Bool := none
  deriving Repr

/-- A test case dict (`test_cases` entry in `validate_execution`). -/
structure TestCase where
  input : Option (List (String × PyVal)) := none
  expected : Option PyVal := none
  description : Option String := none

/-- The `checkpoint_config` dict handed to `validate_checkpoint`. -/
structure CheckpointConfig where
  type_ : Option String := none
  checks : Option (List CheckRule) := none
  test_cases : Option (List TestCase) := none
  function_name : Option String := none
  timeout : Option Nat := none

/-- What a call to the validator does, seen from the caller: it returns a
result dict, an exception propagates out of it, or it never returns. -/
inductive Outcome where
  | result (r : ValidationResult)
  | raised (e : PyExc)
  | hangs
  deriving DecidableEq, Repr

/-- `CheckpointValidator.EXECUTION_TIMEOUT` (line 51). -/
def EXECUTION_TIMEOUT : Nat := 5

/-- The keys of `CheckpointValidator.SAFE_BUILTINS` (lines 54-80), in
source order: the capability whitelist seeded into the sandbox. -/
def SAFE_BUILTINS : List String :=
  ["str", "int", "float", "bool", "list", "dict", "tuple", "set",
   "len", "range", "enumerate", "zip", "map", "filter", "sorted",
   "sum", "min", "max", "abs", "round", "print",
   "ValueError", "TypeError", "KeyError", "IndexError"]

/-! ## The regex primitive

`validate_static` calls `re.search(pattern, submitted_code, re.MULTILINE)`.
`re.search` first compiles the pattern and raises `re.error` on a
malformed one.  The model covers the pattern subset exercised by the
claims: a pattern whose parentheses are unbalanced fails to compile (as
`"("` does in CPython), and a well-formed pattern made of literal
characters matches iff it occurs as a substring of the text. -/

/-- Does the pattern compile?  Modelled as: its parentheses are balanced
(the only malformation exercised; `re.compile("(")` raises
`re.error("missing ), unterminated subpattern at position 0")`). -/
def patternCompiles (p : String) : Bool :=
  go p.data 0
where
  go : List Char → Nat → Bool
    | [], 0 => true
    | [], _ + 1 => false
    | '(' :: cs, n => go cs (n + 1)
    | ')' :: _, 0 => false
    | ')' :: cs, n + 1 => go cs n
    | _ :: cs, n => go cs n

/-- The match relation for a compiled literal pattern: substring
occurrence. -/
def reMatches (p text : String) : Bool :=
  go p.data text.data
where
  go (p : List Char) : List Char → Bool
    | [] => p.isEmpty
    | c :: rest => p.isPrefixOf (c :: rest) || go p rest

/-- Model of `re.search(pattern, text, re.MULTILINE)` converted to a
boolean (the validator only tests truthiness of the match object): raises
`re.error` on a pattern that does not compile, otherwise reports whether
the pattern matches. -/
def reSearch (p text : String) : Except PyExc Bool :=
  if patternCompiles p then
    .ok (reMatches p text)
  else
    .error (.reError "missing ), unterminated subpattern at position 0")

/-- `CheckpointValidator._ast_contains_node` (lines 232-249): walk the
tree and report whether any node's type name equals `node_type`.  The
`node_type` argument comes from `check.get('node_type')` and may be the
Python `None`, which compares unequal to every name. -/
def ast_contains_node (tree : PyAst) (node_type : Option String) : Bool :=
  tree.nodeTypes.any (fun n => node_type = some n)

/-! ## `validate_static` (lines 139-230) -/

/-- The syntax-error result of `validate_static` (lines 189-195). -/
def synStaticResult (e : SynError) : ValidationResult :=
  { passed := false
    message := "Syntax error in your code"
    errors := some ["Line " ++ toString e.lineno ++ ": " ++ e.msg]
    hints := some ["Check for missing colons, parentheses, or quotes"] }

/-- The result assembled after the check loop (lines 222-230):
`passed = len(errors) == 0`, fixed message, and `errors if errors else
None` / `hints if hints else None`. -/
def mkStaticResult (errors hints : List String) : ValidationResult :=
  { passed := errors.isEmpty
    message := if errors.isEmpty then "All checks passed!" else "Some checks failed"
    errors := if errors.isEmpty then none else some errors
    hints := if hints.isEmpty then none else some hints }

/-- The `for check in checks` loop of `validate_static` (lines 197-220),
threading the `errors` and `hints` accumulators.  A check of unknown
`type` falls through the `if`/`elif` and contributes nothing.  An
exception raised by `re.search` (malformed pattern) propagates: there is
no handler around the loop. -/
def staticLoop (text : String) (tree : PyAst) :
    List CheckRule → List String → List String → Outcome
  | [], errors, hints => .result (mkStaticResult errors hints)
  | check :: rest, errors, hints =>
    let check_type := check.type_.getD "regex"
    let required := check.required.getD true
    let message := check.message.getD "Check failed"
    if check_type = "regex" then
      match reSearch (check.pattern.getD "") text with
      | .error e => .raised e
      | .ok found =>
        if !found then
          if required then staticLoop text tree rest (errors ++ [message]) hints
          else staticLoop text tree rest errors (hints ++ [message])
        else staticLoop text tree rest errors hints
    else if check_type = "ast_contains" then
      if !ast_contains_node tree check.node_type then
        if required then staticLoop text tree rest (errors ++ [message]) hints
        else staticLoop text tree rest errors (hints ++ [message])
      else staticLoop text tree rest errors hints
    else
      staticLoop text tree rest errors hints

/-- `CheckpointValidator.validate_static` (lines 139-230): parse, then
run every check, then assemble the result. -/
def validate_static (submitted_code : Code) (checks : List CheckRule) : Outcome :=
  match submitted_code.parse with
  | .error e => .result (synStaticResult e)
  | .ok tree => staticLoop submitted_code.text tree checks [] []

/-! ## `validate_execution` (lines 251-407)

The deadline machinery: `signal.alarm(timeout)` schedules a one-shot
SIGALRM; the installed handler raises
`TimeoutError(f"Code execution timed out after {timeout} seconds")` at
whatever point execution has reached.  `signal.alarm(0)` cancels the
pending alarm.  The pending-alarm state is `some b` (fires after `b` more
seconds) or `none`. -/

/-- The pending-alarm state: `some b` = SIGALRM due in `b` seconds. -/
abbrev AlarmState := Option Nat

/-- `signal.alarm(t)`: `t = 0` cancels the alarm, otherwise schedules it. -/
def setAlarm (t : Nat) : AlarmState :=
  if t = 0 then none else some t

/-- The outcome of running one step under the alarm: the step's value or
exception together with the remaining alarm state, or the step never
returns (only possible when no alarm is pending). -/
inductive StepOut (α : Type) where
  | ok (a : α) (alarm : AlarmState)
  | exc (e : PyExc) (alarm : AlarmState)
  | hangs

/-- Run one step of behaviour `beh` with the alarm in state `alarm`.  If
the step finishes strictly before the alarm is due, the alarm keeps
ticking; otherwise the alarm fires during the step, its handler raises
`TimeoutError tmsg` at the current execution point, and the one-shot
alarm is consumed (state `none`). -/
def runStep {α : Type} (alarm : AlarmState) (tmsg : String) :
    StepBeh α → StepOut α
  | .ret t a =>
    match alarm with
    | some b => if b ≤ t then .exc (.timeoutError tmsg) none else .ok a (some (b - t))
    | none => .ok a none
  | .raiseExc t e =>
    match alarm with
    | some b => if b ≤ t then .exc (.timeoutError tmsg) none else .exc e (some (b - t))
    | none => .exc e none
  | .diverge =>
    match alarm with
    | some _ => .exc (.timeoutError tmsg) none
    | none => .hangs

/-- The bindings `validate_execution` itself seeds into `safe_globals`
(lines 315-318) before `exec` runs: `__builtins__` (the whitelist dict)
and `__name__` (the string `'__student_code__'`). -/
def initBinding (name : String) : Option PyObj :=
  if name = "__builtins__" then some .builtinsDict
  else if name = "__name__" then some (.plain (.pystr "__student_code__"))
  else none

/-- Lookup in `safe_globals` after `exec` has added the module's own
bindings `updates` on top of the seeded ones (dict update: the module's
writes win). -/
def lookupNs (updates : List (String × PyObj)) (name : String) : Option PyObj :=
  match updates.find? (fun p => p.1 = name) with
  | some p => some p.2
  | none => initBinding name

/-- `str(function_name)` as an f-string renders it: the name itself, or
`"None"` when `checkpoint_config` had no `function_name` key. -/
def fnStr : Option String → String
  | some s => s
  | none => "None"

/-- The message the timeout handler puts into the `TimeoutError`
(line 322). -/
def timeoutMessage (timeout : Nat) : String :=
  "Code execution timed out after " ++ toString timeout ++ " seconds"

/-- The syntax-error result of `validate_execution` (lines 305-310):
like the static one but with no hints entry. -/
def synExecResult (e : SynError) : ValidationResult :=
  { passed := false
    message := "Syntax error in your code"
    errors := some ["Line " ++ toString e.lineno ++ ": " ++ e.msg] }

/-- The missing-entry-point result (lines 335-340). -/
def missingFnResult (fn : String) : ValidationResult :=
  { passed := false
    message := "Function \"" ++ fn ++ "\" not found in your code"
    errors := some ["Expected to find function: " ++ fn] }

/-- An entry of the `failed_tests` list (lines 345-366): either a value
mismatch (dict with `description`, `expected`, `actual`) or a case whose
call raised (dict with `description`, `error`). -/
inductive FailedTest where
  | mismatch (description : String) (expected actual : PyVal)
  | errored (description : String) (error : String)
  deriving DecidableEq, Repr

/-- The per-entry formatting of line 377:
`f"{t['description']}: Expected {t.get('expected')}, got {t.get('actual', 'error: ' + t.get('error'))}"`.
Python evaluates the default argument of `t.get('actual', ...)` eagerly,
so for a mismatch entry (which has no `'error'` key) the expression
`'error: ' + t.get('error')` is `str + None` and raises `TypeError`
before the entry's string is produced.  For an errored entry,
`t.get('expected')` is `None` (rendered `"None"`) and the eagerly built
default string is used. -/
def formatFailed : FailedTest → Except PyExc String
  | .mismatch _ _ _ =>
    .error (.typeError "can only concatenate str (not \"NoneType\") to str")
  | .errored d err =>
    .ok (d ++ ": Expected None, got error: " ++ err)

/-- The outer exception handlers of `validate_execution` (lines
387-402): `except TimeoutError` yields the timeout result, `except
Exception` yields the generic execution-error result. -/
def handleOuterExc (e : PyExc) : ValidationResult :=
  match e with
  | .timeoutError _ =>
    { passed := false
      message := "Code execution timeout"
      errors := some [e.str]
      hints := some ["Your code might have an infinite loop"] }
  | _ =>
    { passed := false
      message := "Error executing your code"
      errors := some [e.str] }

/-- What a call of the student function with the given keyword arguments
does: a callable runs its behaviour; calling a non-callable raises
`TypeError` immediately; calling the seeded `__builtins__` dict raises
`TypeError` for a dict. -/
def callObj (fnObj : PyObj) (kwargs : List (String × PyVal)) : StepBeh PyVal :=
  match fnObj with
  | .callable f => f kwargs
  | .plain v => .raiseExc 0 (.typeError ("'" ++ v.typeName ++ "' object is not callable"))
  | .builtinsDict => .raiseExc 0 (.typeError "'dict' object is not callable")

/-- The `for i, test_case in enumerate(test_cases)` loop (lines
344-366), threading the alarm state and the `failed_tests` accumulator.
The per-case `except Exception` catches every exception the call raises —
including the `TimeoutError` the alarm handler raises if the deadline
elapses during the call — and records it as that case's failure.  If a
call diverges after the one-shot alarm has already been consumed, the
loop (and the whole validator call) never returns. -/
def testLoop (tmsg : String) (fnObj : PyObj) :
    List TestCase → Nat → AlarmState → List FailedTest →
    Option (List FailedTest)
  | [], _, _, acc => some acc
  | tc :: rest, i, alarm, acc =>
    let test_input := tc.input.getD []
    let expected := tc.expected.getD .pynone
    let description := tc.description.getD ("Test " ++ toString (i + 1))
    match runStep alarm tmsg (callObj fnObj test_input) with
    | .ok result alarm' =>
      if result ≠ expected then
        testLoop tmsg fnObj rest (i + 1) alarm'
          (acc ++ [.mismatch description expected result])
      else
        testLoop tmsg fnObj rest (i + 1) alarm' acc
    | .exc e alarm' =>
      testLoop tmsg fnObj rest (i + 1) alarm'
        (acc ++ [.errored description e.str])
    | .hangs => none

/-- The result assembly after the test loop (lines 371-385): on any
failed test, the message counts the failures and the errors list is the
formatted entries — whose formatting itself raises `TypeError` at the
first mismatch entry (see `formatFailed`), in which case the outer
`except Exception` produces the generic result.  With no failed test,
`passed=True` and no errors entry. -/
def assembleExecResult (test_cases : List TestCase)
    (failed_tests : List FailedTest) : ValidationResult :=
  if failed_tests.isEmpty then
    { passed := true
      message := "All " ++ toString test_cases.length ++ " test(s) passed!" }
  else
    match failed_tests.mapM formatFailed with
    | .error e => handleOuterExc e
    | .ok msgs =>
      { passed := false
        message := toString failed_tests.length ++ " test(s) failed"
        errors := some msgs }

/-- `CheckpointValidator.validate_execution` (lines 251-407): parse,
seed the namespace, arm the alarm, `exec` the module body, look up the
entry point, run every test case, and assemble the result.  All
exceptions reaching the outer `try` are converted by `handleOuterExc`;
the call hangs only if a step diverges with no alarm pending. -/
def validate_execution (submitted_code : Code) (test_cases : List TestCase)
    (function_name : Option String) (timeout : Nat := 5) : Outcome :=
  match submitted_code.parse with
  | .error e => .result (synExecResult e)
  | .ok _tree =>
    let tmsg := timeoutMessage timeout
    -- signal.signal(SIGALRM, handler); signal.alarm(timeout)  (lines 327-328)
    match runStep (setAlarm timeout) tmsg submitted_code.execBeh with
    | .hangs => .hangs
    | .exc e _ => .result (handleOuterExc e)
    | .ok updates alarm1 =>
      match function_name.bind (lookupNs updates) with
      | none => .result (missingFnResult (fnStr function_name))
      | some fnObj =>
        match testLoop tmsg fnObj test_cases 0 alarm1 [] with
        | none => .hangs
        | some failed_tests => .result (assembleExecResult test_cases failed_tests)

/-! ## `validate_checkpoint` (lines 82-137) -/

/-- The unknown-validator-type result (lines 132-137). -/
def unknownTypeResult (t : String) : ValidationResult :=
  { passed := false
    message := "Unknown validator type: " ++ t
    errors := some ["Validator type \"" ++ t ++ "\" not supported"] }

/-- `CheckpointValidator.validate_checkpoint` (lines 82-137): read
`checkpoint_config.get('type', 'static')` and route.  There is no
`try`/`except` anywhere in this function (nor around the rule loop of
`validate_static`), so an exception raised below it propagates to the
caller. -/
def validate_checkpoint (lesson_id : Nat) (checkpoint_id : String)
    (submitted_code : Code) (checkpoint_config : CheckpointConfig) : Outcome :=
  let validator_type := checkpoint_config.type_.getD "static"
  if validator_type = "static" then
    validate_static submitted_code (checkpoint_config.checks.getD [])
  else if validator_type = "execution" then
    validate_execution submitted_code (checkpoint_config.test_cases.getD [])
      checkpoint_config.function_name
      (checkpoint_config.timeout.getD EXECUTION_TIMEOUT)
  else
    .result (unknownTypeResult validator_type)

/-! ## Concrete submissions

Each value records the behaviour CPython assigns to the quoted source
text: its parse result (node-type names as produced by `ast.walk`) and
the behaviour of executing its module body in the sandbox namespace. -/

/-- `"x = 1"`: parses, and executing it binds `x` to `1` instantly. -/
def codeX1 : Code :=
  { text := "x = 1"
    parse := .ok ⟨["Module", "Assign", "Name", "Store", "Constant"]⟩
    execBeh := .ret 0 [("x", .plain (.pyint 1))] }

/-- `"def f(:"`: `ast.parse` raises `SyntaxError` on line 1. -/
def badSynCode : Code :=
  { text := "def f(:"
    parse := .error ⟨1, "invalid syntax"⟩
    execBeh := .raiseExc 0 (.otherExc "unreachable: compile fails") }

/-- `"while True: pass"` (spec scenario E): parses; executing the module
body never terminates. -/
def whileTrueCode : Code :=
  { text := "while True: pass"
    parse := .ok ⟨["Module", "While", "Constant", "Pass"]⟩
    execBeh := .diverge }

/-- `"def f(x):\n    while True:\n        pass"`: the module body
terminates instantly, defining `f`, and every call of `f` runs forever. -/
def loopFnCode : Code :=
  { text := "def f(x):\n    while True:\n        pass"
    parse := .ok ⟨["Module", "FunctionDef", "arguments", "arg", "While",
                   "Constant", "Pass"]⟩
    execBeh := .ret 0 [("f", .callable (fun _ => .diverge))] }

/-- `"def double(x):\n    return x"` (spec scenario D): defines `double`
returning its argument unchanged. -/
def doubleIdCode : Code :=
  { text := "def double(x):\n    return x"
    parse := .ok ⟨["Module", "FunctionDef", "arguments", "arg", "Return",
                   "Name", "Load"]⟩
    execBeh := .ret 0 [("double", .callable (fun kwargs =>
      match kwargs with
      | [("x", v)] => .ret 0 v
      | _ => .raiseExc 0 (.typeError "double() got an unexpected keyword argument")))] }

/-- `"def double(x):\n    return 2 * x"` (spec scenario C): defines a
correct `double`. -/
def doubleOkCode : Code :=
  { text := "def double(x):\n    return 2 * x"
    parse := .ok ⟨["Module", "FunctionDef", "arguments", "arg", "Return",
                   "BinOp", "Constant", "Mult", "Name", "Load"]⟩
    execBeh := .ret 0 [("double", .callable (fun kwargs =>
      match kwargs with
      | [("x", .pyint n)] => .ret 0 (.pyint (2 * n))
      | _ => .raiseExc 0 (.typeError "unsupported operand type(s) for *")))] }

/-- `"double = 5"`: the module body binds the entry-point name to a
non-callable int. -/
def nonCallableCode : Code :=
  { text := "double = 5"
    parse := .ok ⟨["Module", "Assign", "Name", "Store", "Constant"]⟩
    execBeh := .ret 0 [("double", .plain (.pyint 5))] }

/-! ## Spec-side description of the static rule semantics

These definitions follow the words of §4.2 step 2 of the specification
("each failed `required=true` rule appends to `errors`; each failed
`required=false` rule appends to `hints`; passing rules produce no
output; all rules are evaluated independently and unconditionally"), to
be compared with the code's `staticLoop`. -/

/-- Does one rule fail on these inputs?  A `regex` rule fails when its
pattern does not match, an `ast_contains` rule fails when the node kind
is absent, and a rule of unknown kind contributes nothing (never
"fails"). -/
def ruleFails (text : String) (tree : PyAst) (c : CheckRule) : Bool :=
  if c.type_.getD "regex" = "regex" then
    !reMatches (c.pattern.getD "") text
  else if c.type_.getD "regex" = "ast_contains" then
    !ast_contains_node tree c.node_type
  else
    false

/-- The blocking-error messages: one entry per failed `required=true`
rule, in rule-list order. -/
def specErrors (text : String) (tree : PyAst) (checks : List CheckRule) : List String :=
  checks.filterMap fun c =>
    if ruleFails text tree c && c.required.getD true then
      some (c.message.getD "Check failed")
    else none

/-- The advisory hints: one entry per failed `required=false` rule, in
rule-list order. -/
def specHints (text : String) (tree : PyAst) (checks : List CheckRule) : List String :=
  checks.filterMap fun c =>
    if ruleFails text tree c && !(c.required.getD true) then
      some (c.message.getD "Check failed")
    else none

/-! ## Lemmas about the static check loop -/

/-- Any result the check loop returns has the assembled
`mkStaticResult` shape. -/
theorem staticLoop_result_shape (text : String) (tree : PyAst)
    (cs : List CheckRule) :
    ∀ errs hs r, staticLoop text tree cs errs hs = .result r →
      ∃ E H, r = mkStaticResult E H := by
  induction cs with
  | nil =>
    intro errs hs r h
    injection h with h'
    exact ⟨errs, hs, h'.symm⟩
  | cons c rest ih =>
    intro errs hs r h
    simp only [staticLoop] at h
    split at h
    · split at h
      · exact Outcome.noConfusion h
      · split at h
        · split at h
          · exact ih _ _ _ h
          · exact ih _ _ _ h
        · exact ih _ _ _ h
    · split at h
      · split at h
        · split at h
          · exact ih _ _ _ h
          · exact ih _ _ _ h
        · exact ih _ _ _ h
      · exact ih _ _ _ h

/-- When every rule's regex pattern compiles, the loop returns, and its
errors/hints are exactly the spec-side lists appended to the incoming
accumulators, in order. -/
theorem staticLoop_wf (text : String) (tree : PyAst) (cs : List CheckRule) :
    ∀ errs hs,
      (∀ c ∈ cs, c.type_.getD "regex" = "regex" →
        patternCompiles (c.pattern.getD "") = true) →
      staticLoop text tree cs errs hs =
        .result (mkStaticResult (errs ++ specErrors text tree cs)
                                (hs ++ specHints text tree cs)) := by
  induction cs with
  | nil =>
    intro errs hs _
    simp [staticLoop, specErrors, specHints]
  | cons c rest ih =>
    intro errs hs hwf
    have hc := hwf c (List.mem_cons_self c rest)
    have hrest := fun c' hm => hwf c' (List.mem_cons_of_mem c hm)
    by_cases ht : c.type_.getD "regex" = "regex"
    · have hpc := hc ht
      by_cases hm : reMatches (c.pattern.getD "") text
      · simp [staticLoop, ht, reSearch, hpc, hm, specErrors, specHints,
              ruleFails, ih _ _ hrest]
      · by_cases hreq : c.required.getD true
        · simp [staticLoop, ht, reSearch, hpc, hm, hreq, specErrors,
                specHints, ruleFails, ih _ _ hrest, List.append_assoc]
        · simp [staticLoop, ht, reSearch, hpc, hm, hreq, specErrors,
                specHints, ruleFails, ih _ _ hrest, List.append_assoc]
    · by_cases ht2 : c.type_.getD "regex" = "ast_contains"
      · by_cases hm : ast_contains_node tree c.node_type
        · simp [staticLoop, ht, ht2, hm, specErrors, specHints, ruleFails,
                ih _ _ hrest]
        · by_cases hreq : c.required.getD true
          · simp [staticLoop, ht, ht2, hm, hreq, specErrors, specHints,
                  ruleFails, ih _ _ hrest, List.append_assoc]
          · simp [staticLoop, ht, ht2, hm, hreq, specErrors, specHints,
                  ruleFails, ih _ _ hrest, List.append_assoc]
      · simp [staticLoop, ht, ht2, specErrors, specHints, ruleFails,
              ih _ _ hrest]

/-- When every rule is optional (`required = false` present in the
dict), the error accumulator never grows. -/
theorem staticLoop_optional (text : String) (tree : PyAst)
    (cs : List CheckRule) :
    ∀ errs hs r,
      (∀ c ∈ cs, c.required = some false) →
      staticLoop text tree cs errs hs = .result r →
      ∃ H, r = mkStaticResult errs H := by
  induction cs with
  | nil =>
    intro errs hs r _ h
    injection h with h'
    exact ⟨hs, h'.symm⟩
  | cons c rest ih =>
    intro errs hs r hopt h
    have hc : c.required = some false := hopt c (List.mem_cons_self c rest)
    have hrest := fun c' hm => hopt c' (List.mem_cons_of_mem c hm)
    simp only [staticLoop, hc, Option.getD_some, if_false] at h
    split at h
    · split at h
      · exact Outcome.noConfusion h
      · split at h
        · exact ih _ _ _ hrest h
        · exact ih _ _ _ hrest h
    · split at h
      · split at h
        · exact ih _ _ _ hrest h
        · exact ih _ _ _ hrest h
      · exact ih _ _ _ hrest h

/-! ## Result-shape lemmas -/

/-- Every outer-handler result has `passed = false`. -/
theorem handleOuterExc_passed (e : PyExc) : (handleOuterExc e).passed = false := by
  cases e <;> rfl

/-- If the assembled execution result passed, it has no errors entry. -/
theorem assembleExecResult_passed_errors (tcs : List TestCase)
    (fts : List FailedTest) :
    (assembleExecResult tcs fts).passed = true →
    (assembleExecResult tcs fts).errors = none := by
  unfold assembleExecResult
  split
  · intro _; rfl
  · split
    · intro hp
      rw [handleOuterExc_passed] at hp
      exact absurd hp (by simp)
    · intro hp
      exact absurd hp (by simp)

/-- `validate_static` result invariant: `passed = true` implies no
errors entry. -/
theorem validate_static_passed_errors {sub : Code} {checks : List CheckRule}
    {r : ValidationResult} (h : validate_static sub checks = .result r)
    (hp : r.passed = true) : r.errors = none := by
  unfold validate_static at h
  split at h
  · injection h with h'
    subst h'
    exact absurd hp (by simp [synStaticResult])
  · obtain ⟨E, H, rfl⟩ := staticLoop_result_shape _ _ _ _ _ _ h
    simp only [mkStaticResult] at hp ⊢
    simp [hp]

/-- `validate_execution` result invariant: `passed = true` implies no
errors entry. -/
theorem validate_execution_passed_errors {sub : Code}
    {tcs : List TestCase} {fn : Option String} {tmo : Nat}
    {r : ValidationResult}
    (h : validate_execution sub tcs fn tmo = .result r)
    (hp : r.passed = true) : r.errors = none := by
  unfold validate_execution at h
  split at h
  · injection h with h'
    subst h'
    exact absurd hp (by simp [synExecResult])
  · simp only [] at h
    split at h
    · exact Outcome.noConfusion h
    · injection h with h'
      subst h'
      rw [handleOuterExc_passed] at hp
      exact absurd hp (by simp)
    · split at h
      · injection h with h'
        subst h'
        exact absurd hp (by simp [missingFnResult])
      · split at h
        · exact Outcome.noConfusion h
        · injection h with h'
          subst h'
          exact assembleExecResult_passed_errors _ _ hp

/-- `validate_checkpoint` result invariant: `passed = true` implies no
errors entry. -/
theorem validate_checkpoint_passed_errors {l : Nat} {cid : String}
    {sub : Code} {cfg : CheckpointConfig} {r : ValidationResult}
    (h : validate_checkpoint l cid sub cfg = .result r)
    (hp : r.passed = true) : r.errors = none := by
  unfold validate_checkpoint at h
  simp only [] at h
  split at h
  · exact validate_static_passed_errors h hp
  · split at h
    · exact validate_execution_passed_errors h hp
    · injection h with h'
      subst h'
      exact absurd hp (by simp [unknownTypeResult])

/-- The message of any returned `validate_static` result is one of the
three fixed strings of the source. -/
theorem validate_static_message {sub : Code} {checks : List CheckRule}
    {r : ValidationResult} (h : validate_static sub checks = .result r) :
    r.message = "Syntax error in your code" ∨
    r.message = "All checks passed!" ∨
    r.message = "Some checks failed" := by
  unfold validate_static at h
  split at h
  · injection h with h'
    subst h'
    exact Or.inl rfl
  · obtain ⟨E, H, rfl⟩ := staticLoop_result_shape _ _ _ _ _ _ h
    by_cases hE : E.isEmpty <;> simp [mkStaticResult, hE]

/-- The unknown-validator-type message always starts with `'U'`. -/
theorem unknownTypeMsg_head (t : String) :
    ("Unknown validator type: " ++ t).data.head? = some 'U' := by
  cases t
  rfl

/-! ## Claim theorems -/

/-- A checkpoint config routing to the static validator with one
required regex check whose pattern `"("` does not compile. -/
def badRegexCfg : CheckpointConfig :=
  { type_ := some "static"
    checks := some [{ type_ := some "regex", pattern := some "(",
                      message := some "m", required := some true }] }

/-- A config with no `type` key, carrying one optional check. -/
def noTypeCfg : CheckpointConfig :=
  { checks := some [{ pattern := some "raise ValueError",
                      message := some "Consider raising ValueError",
                      required := some false }] }

/-- An optional (`required=False`) regex rule. -/
def optRule : CheckRule :=
  { pattern := some "raise ValueError"
    message := some "Consider raising ValueError"
    required := some false }

/-- Test case: call with `x=2`, expect `4` (spec scenarios C/D). -/
def tcDouble2 : TestCase :=
  { input := some [("x", .pyint 2)], expected := some (.pyint 4) }

/-- Test case: call with `x=3`, expect `6`. -/
def tcDouble3 : TestCase :=
  { input := some [("x", .pyint 3)], expected := some (.pyint 6) }

/-- Test case: call with `x=1`, expect `1`. -/
def tcLoop : TestCase :=
  { input := some [("x", .pyint 1)], expected := some (.pyint 1) }

/-- Claim C1, evidence of the code bug: `validate_checkpoint` has no
`try`/`except`, and `validate_static` has none around its rule loop, so
the `re.error` raised by `re.search` on the malformed pattern `"("` in a
static check propagates to the caller instead of being converted into a
`passed=false` `ValidationResult` — contradicting the spec and the
function's own docstring ("DON'T: Raise exceptions - return error dict
for user display"). -/
theorem malformed_regex_escapes_dispatcher :
    validate_checkpoint 3 "lesson3_email_check" codeX1 badRegexCfg =
      .raised (.reError "missing ), unterminated subpattern at position 0") ∧
    ∀ r, validate_checkpoint 3 "lesson3_email_check" codeX1 badRegexCfg ≠
      Outcome.result r := by
  refine ⟨rfl, fun r h => ?_⟩
  rw [show validate_checkpoint 3 "lesson3_email_check" codeX1 badRegexCfg =
        .raised (.reError "missing ), unterminated subpattern at position 0")
      from rfl] at h
  exact Outcome.noConfusion h

/-- Claim C2, evidence of the code bug: a deadline that elapses during
module-level execution is reported with the dedicated timeout message
(spec scenario E, first conjunct), but a deadline that elapses during a
test-case invocation is caught by the per-case `except Exception` and
reported as an ordinary test failure — message `"1 test(s) failed"`
instead of `"Code execution timeout"` (second conjunct), and the
one-shot alarm is consumed in the process. -/
theorem testcase_timeout_reported_as_test_failure :
    validate_execution whileTrueCode [] (some "process_data") 5 =
      .result { passed := false
                message := "Code execution timeout"
                errors := some ["Code execution timed out after 5 seconds"]
                hints := some ["Your code might have an infinite loop"] } ∧
    validate_execution loopFnCode [tcLoop] (some "f") 5 =
      .result { passed := false
                message := "1 test(s) failed"
                errors := some
                  ["Test 1: Expected None, got error: Code execution timed out after 5 seconds"] } :=
  ⟨rfl, rfl⟩

/-- Claim C4, counterexample: when the entry-point name is bound to a
non-callable value (`double = 5`), `validate_execution` does not return
the missing-function result — the membership test `function_name not in
safe_globals` succeeds and each test case fails with the call's
`TypeError` instead. -/
theorem noncallable_entry_not_reported_missing :
    validate_execution nonCallableCode [tcDouble2] (some "double") 5 =
      .result { passed := false
                message := "1 test(s) failed"
                errors := some
                  ["Test 1: Expected None, got error: 'int' object is not callable"] } ∧
    ({ passed := false
       message := "1 test(s) failed"
       errors := some
         ["Test 1: Expected None, got error: 'int' object is not callable"] } :
        ValidationResult) ≠ missingFnResult "double" :=
  ⟨rfl, by decide⟩

/-- Claim C4 (amended): after the module body executes without error,
`validate_execution` returns the `passed=false` result naming the
missing function exactly when the entry-point name is absent from the
namespace (callability is not checked; a name bound to a non-callable
value proceeds to the test loop instead). -/
theorem missing_entry_point_result (sub : Code) (tcs : List TestCase)
    (fn : Option String) (tmo : Nat) (tree : PyAst)
    (updates : List (String × PyObj)) (alarm1 : AlarmState)
    (h1 : sub.parse = .ok tree)
    (h2 : runStep (setAlarm tmo) (timeoutMessage tmo) sub.execBeh =
      .ok updates alarm1)
    (h3 : fn.bind (lookupNs updates) = none) :
    validate_execution sub tcs fn tmo = .result (missingFnResult (fnStr fn)) := by
  simp [validate_execution, h1, h2, h3]

/-- Claim C4, witness for the amended theorem at a concrete input. -/
theorem missing_entry_point_result_witness :
    validate_execution codeX1 [] (some "double") 5 =
      .result (missingFnResult (fnStr (some "double"))) :=
  missing_entry_point_result codeX1 [] (some "double") 5
    ⟨["Module", "Assign", "Name", "Store", "Constant"]⟩
    [("x", .plain (.pyint 1))] (some 5) rfl rfl rfl

/-- Claim C5: every `ValidationResult` returned by `validate_checkpoint`,
`validate_static` or `validate_execution` with `passed=true` has no
errors entry. -/
theorem passed_implies_no_errors (r : ValidationResult)
    (h : (∃ sub checks, validate_static sub checks = .result r) ∨
         (∃ sub tcs fn tmo, validate_execution sub tcs fn tmo = .result r) ∨
         (∃ l cid sub cfg, validate_checkpoint l cid sub cfg = .result r))
    (hp : r.passed = true) : r.errors = none := by
  rcases h with ⟨sub, checks, h⟩ | ⟨sub, tcs, fn, tmo, h⟩ | ⟨l, cid, sub, cfg, h⟩
  · exact validate_static_passed_errors h hp
  · exact validate_execution_passed_errors h hp
  · exact validate_checkpoint_passed_errors h hp

/-- Claim C5, witness: a passing execution run (spec scenario C) indeed
carries no errors entry. -/
theorem passed_implies_no_errors_witness :
    ({ passed := true, message := "All 1 test(s) passed!" } :
      ValidationResult).errors = none :=
  passed_implies_no_errors _
    (.inr (.inl ⟨doubleOkCode, [tcDouble2], some "double", 5, rfl⟩)) rfl

/-- Claim C6, evidence of the code bug: the error-formatting f-string of
line 377 evaluates the default argument `'error: ' + t.get('error')`
eagerly, which is `str + None` for a mismatch entry, so any run with at
least one mismatching case raises `TypeError` during formatting and is
caught by the outer `except Exception`: the result is the generic
`"Error executing your code"` with a single TypeError message — one
entry regardless of how many cases failed (spec scenario D's
`"Test 1: Expected 4, got 2"` is unreachable). -/
theorem mismatch_formatting_raises_typeerror :
    validate_execution doubleIdCode [tcDouble2] (some "double") 5 =
      .result { passed := false
                message := "Error executing your code"
                errors := some ["can only concatenate str (not \"NoneType\") to str"] } ∧
    validate_execution doubleIdCode [tcDouble2, tcDouble3] (some "double") 5 =
      .result { passed := false
                message := "Error executing your code"
                errors := some ["can only concatenate str (not \"NoneType\") to str"] } :=
  ⟨rfl, rfl⟩

/-- Claim C7: on a submission whose parse fails, both `validate_static`
and `validate_execution` return `passed=false` with the syntax-error
message and an errors entry carrying the line number and parser reason,
independently of the rule list and test-case list (zero rules/tests
evaluated); both functions are pure, so re-running with the same input
yields the same result by definition. -/
theorem syn_error_terminal (sub : Code) (e : SynError)
    (checks checks' : List CheckRule) (tcs tcs' : List TestCase)
    (fn fn' : Option String) (tmo : Nat)
    (h : sub.parse = .error e) :
    validate_static sub checks = .result (synStaticResult e) ∧
    validate_execution sub tcs fn tmo = .result (synExecResult e) ∧
    validate_static sub checks = validate_static sub checks' ∧
    validate_execution sub tcs fn tmo = validate_execution sub tcs' fn' tmo := by
  refine ⟨?_, ?_, ?_, ?_⟩ <;> simp [validate_static, validate_execution, h]

/-- Claim C7, witness at a concrete syntactically invalid submission. -/
theorem syn_error_terminal_witness :
    validate_static badSynCode [optRule] =
      .result (synStaticResult ⟨1, "invalid syntax"⟩) ∧
    validate_execution badSynCode [tcDouble2] (some "f") 5 =
      .result (synExecResult ⟨1, "invalid syntax"⟩) ∧
    validate_static badSynCode [optRule] = validate_static badSynCode [] ∧
    validate_execution badSynCode [tcDouble2] (some "f") 5 =
      validate_execution badSynCode [] none 5 :=
  syn_error_terminal badSynCode ⟨1, "invalid syntax"⟩ [optRule] []
    [tcDouble2] [] (some "f") none 5 rfl

/-- Claim C8, counterexample: with a rule whose regex pattern does not
compile, `validate_static` does not return any `ValidationResult` at
all — the `re.error` propagates — so the claim's universal pass/fail
semantics over every rule list fails as stated. -/
theorem static_rule_exception_counterexample :
    validate_static codeX1
      [{ type_ := some "regex", pattern := some "(", message := some "m",
         required := some true }] =
      .raised (.reError "missing ), unterminated subpattern at position 0") ∧
    ∀ r, validate_static codeX1
      [{ type_ := some "regex", pattern := some "(", message := some "m",
         required := some true }] ≠ Outcome.result r := by
  refine ⟨rfl, fun r h => ?_⟩
  rw [show validate_static codeX1
        [{ type_ := some "regex", pattern := some "(", message := some "m",
           required := some true }] =
        .raised (.reError "missing ), unterminated subpattern at position 0")
      from rfl] at h
  exact Outcome.noConfusion h

/-- Claim C8 (amended): for every syntactically valid input and every
rule list all of whose regex patterns compile, `validate_static`
evaluates every rule unconditionally in list order — errors collects the
message of each failed `required=true` rule, hints the message of each
failed `required=false` rule, passing rules contribute nothing — and the
result has `passed = (errors is empty)` (the shape `mkStaticResult`). -/
theorem static_rules_evaluated_in_order (sub : Code) (tree : PyAst)
    (checks : List CheckRule) (h1 : sub.parse = .ok tree)
    (h2 : ∀ c ∈ checks, c.type_.getD "regex" = "regex" →
      patternCompiles (c.pattern.getD "") = true) :
    validate_static sub checks =
      .result (mkStaticResult (specErrors sub.text tree checks)
                              (specHints sub.text tree checks)) := by
  have h3 := staticLoop_wf sub.text tree checks [] [] h2
  simp only [List.nil_append] at h3
  simp [validate_static, h1, h3]

/-- Claim C8, witness: a failing required rule, a passing rule and a
failing optional rule on `"x = 1"`. -/
theorem static_rules_evaluated_in_order_witness :
    validate_static codeX1
      [{ type_ := some "regex", pattern := some "raise ValueError",
         message := some "Must raise ValueError", required := some true },
       { type_ := some "regex", pattern := some "x = 1",
         message := some "assignment present" },
       { type_ := some "ast_contains", node_type := some "Raise",
         message := some "Consider raising", required := some false }] =
      .result (mkStaticResult
        (specErrors codeX1.text ⟨["Module", "Assign", "Name", "Store", "Constant"]⟩
          [{ type_ := some "regex", pattern := some "raise ValueError",
             message := some "Must raise ValueError", required := some true },
           { type_ := some "regex", pattern := some "x = 1",
             message := some "assignment present" },
           { type_ := some "ast_contains", node_type := some "Raise",
             message := some "Consider raising", required := some false }])
        (specHints codeX1.text ⟨["Module", "Assign", "Name", "Store", "Constant"]⟩
          [{ type_ := some "regex", pattern := some "raise ValueError",
             message := some "Must raise ValueError", required := some true },
           { type_ := some "regex", pattern := some "x = 1",
             message := some "assignment present" },
           { type_ := some "ast_contains", node_type := some "Raise",
             message := some "Consider raising", required := some false }])) :=
  static_rules_evaluated_in_order codeX1
    ⟨["Module", "Assign", "Name", "Store", "Constant"]⟩ _ rfl (by decide)

/-- Claim C9, counterexample: with a syntactically invalid input string
and a rule list whose only entry has `required=false`,
`validate_static` returns `passed=false` (the syntax-error result), so
the claim quantified over every input string fails as stated. -/
theorem optional_rules_blocked_by_syn_error :
    optRule.required = some false ∧
    validate_static badSynCode [optRule] =
      .result (synStaticResult ⟨1, "invalid syntax"⟩) ∧
    (synStaticResult ⟨1, "invalid syntax"⟩).passed = false :=
  ⟨rfl, rfl, rfl⟩

/-- Claim C9 (amended): for every syntactically valid input and every
rule list whose entries all have `required=false`, any result
`validate_static` returns has `passed=true`. -/
theorem optional_rules_never_block (sub : Code) (tree : PyAst)
    (checks : List CheckRule) (r : ValidationResult)
    (h1 : sub.parse = .ok tree)
    (h2 : ∀ c ∈ checks, c.required = some false)
    (h3 : validate_static sub checks = .result r) :
    r.passed = true := by
  unfold validate_static at h3
  split at h3
  · rename_i e heq
    rw [h1] at heq
    exact Except.noConfusion heq
  · rename_i tree' heq
    obtain ⟨H, rfl⟩ := staticLoop_optional _ _ _ _ _ _ h2 h3
    simp [mkStaticResult]

/-- Claim C9, witness: one failing optional rule on valid code still
passes. -/
theorem optional_rules_never_block_witness :
    (mkStaticResult [] ["Consider raising ValueError"]).passed = true :=
  optional_rules_never_block codeX1
    ⟨["Module", "Assign", "Name", "Store", "Constant"]⟩ [optRule]
    (mkStaticResult [] ["Consider raising ValueError"]) rfl
    (by decide) rfl

/-- Claim C10: a `checkpoint_config` without the `'type'` key is routed
to `validate_static` with the config's checks (defaulting to an empty
list), and never produces the unknown-validator-type error result —
that result requires a present but unrecognized kind. -/
theorem missing_type_defaults_to_static (l : Nat) (cid : String)
    (sub : Code) (cfg : CheckpointConfig) (h : cfg.type_ = none) :
    validate_checkpoint l cid sub cfg =
      validate_static sub (cfg.checks.getD []) ∧
    ∀ t, validate_checkpoint l cid sub cfg ≠
      Outcome.result (unknownTypeResult t) := by
  have h1 : validate_checkpoint l cid sub cfg =
      validate_static sub (cfg.checks.getD []) := by
    simp [validate_checkpoint, h]
  refine ⟨h1, fun t hcontra => ?_⟩
  rw [h1] at hcontra
  have hmsg := validate_static_message hcontra
  have hU := unknownTypeMsg_head t
  rcases hmsg with hm | hm | hm <;>
  · rw [show (unknownTypeResult t).message = "Unknown validator type: " ++ t
        from rfl] at hm
    rw [hm] at hU
    exact absurd hU (by decide)

/-- Claim C10, witness at a concrete config with no `type` key. -/
theorem missing_type_defaults_to_static_witness :
    validate_checkpoint 1 "cp1" codeX1 noTypeCfg =
      validate_static codeX1 (noTypeCfg.checks.getD []) :=
  (missing_type_defaults_to_static 1 "cp1" codeX1 noTypeCfg rfl).1
